import Mathlib

/-!
# Shallow embedding of the Minesweeper board engine

This file embeds `src/minesweeper/enums.py` and `src/minesweeper/game.py`.

Modelling conventions:
* Python `int` is `Int`; coordinates may be negative (Python would accept
  a negative index, but every grid access in the engine sits behind
  `_check_bounds`).
* The two grids (Python lists of lists) are modelled as total functions
  `Int → Int → _` with pointwise update `setCell`; the engine only ever
  reads or writes them at bounds-checked coordinates.
* Methods that can raise are rendered in state-passing style with result
  type `Except Err α × Minesweeper`: a Python `raise` returns the error
  together with the state at the raise site, so mutation (or its absence)
  on the error path is visible in the model.
* `random.sample(all_coordinates, number_mines)` — used only when no
  preset mines are given — is modelled by an explicit `randomSample`
  argument to the constructor; theorems about the random branch assume
  exactly the documented contract of `random.sample(population, k)`:
  the chosen list is duplicate-free and drawn from the population.
* The instance attributes `rows`, `cols`, `number_mines` are assigned
  fixed literals in `__init__` and never reassigned, so they are
  modelled as constants.
-/

/-- The game phase enum `GameState` from `enums.py`.  `GAME_OVER` is the lost phase
(the specification names it `LOST`). -/
inductive GameState
  | PLAYING
  | GAME_OVER
  | WON
  deriving DecidableEq, Repr

/-- The cell visibility enum `CellVisibility` from `enums.py`. -/
inductive CellVisibility
  | HIDDEN
  | REVEALED
  | FLAGGED
  deriving DecidableEq, Repr

/-- The two kinds of exception raised by `game.py`:
`RuntimeError` is the spec's `GameOverError`, `ValueError` the spec's
`InvalidMoveError`. -/
inductive Err
  | RuntimeError (msg : String)
  | ValueError (msg : String)
  deriving DecidableEq, Repr

/-- Return type of `get_cell_state`: Python returns `str | int`. -/
inductive CellValue
  | str (s : String)
  | int (n : Int)
  deriving DecidableEq, Repr

/-- Pointwise update of a grid modelled as a function: the effect of the
Python assignment `grid[row][col] = v`. -/
def setCell {α : Type} (g : Int → Int → α) (row col : Int) (v : α) : Int → Int → α :=
  fun r c => if r = row ∧ c = col then v else g r c

/-- The mutable state of one `Minesweeper` instance (class `Minesweeper`
in `game.py`): the content grid, the visibility grid, the game state and
the safe-cell counter. -/
structure Minesweeper where
  content_grid : Int → Int → Int
  visibility_grid : Int → Int → CellVisibility
  game_state : GameState
  counter_safe_cells : Int

namespace Minesweeper

/-- Attribute `self.rows = 8`, assigned in `__init__`. -/
def rows : Int := 8

/-- Attribute `self.cols = 8`, assigned in `__init__`. -/
def cols : Int := 8

/-- Attribute `self.number_mines = 10`, assigned in `__init__`. -/
def number_mines : Int := 10

/-- Class attribute `MINE = -1`. -/
def MINE : Int := -1

/-- Class attribute `neighbour_cells_coordinates`. -/
def neighbour_cells_coordinates : List (Int × Int) :=
  [(-1, 0), (1, 0), (0, -1), (0, 1), (-1, -1), (-1, 1), (1, -1), (1, 1)]

/-- Method `_check_bounds`: `(row >= 0 and row < self.rows) and (col >= 0 and col < self.cols)`. -/
def check_bounds (row col : Int) : Bool :=
  decide ((0 ≤ row ∧ row < rows) ∧ (0 ≤ col ∧ col < cols))

/-- The list comprehension
`[(r, c) for r in range(self.rows) for c in range(self.cols)]`
built in `_place_mines`; the double loop of `_calculate_neighbour_mines`
visits coordinates in exactly this (row-major) order. -/
def all_coordinates : List (Int × Int) :=
  (List.range rows.toNat).flatMap fun r =>
    (List.range cols.toNat).map fun c => (((r : Nat) : Int), ((c : Nat) : Int))

/-- Body of the mine-placement loop: `self.content_grid[r][c] = self.MINE`. -/
def place_mine_step (g : Int → Int → Int) (p : Int × Int) : Int → Int → Int :=
  setCell g p.1 p.2 MINE

/-- Method `_place_mines`: if no preset list was supplied, place the randomly
sampled mines (see the module docstring for how `random.sample` is
modelled), otherwise place the preset mines. -/
def place_mines (g : Int → Int → Int) (preset_mines : Option (List (Int × Int)))
    (randomSample : List (Int × Int)) : Int → Int → Int :=
  match preset_mines with
  | none => randomSample.foldl place_mine_step g
  | some mines => mines.foldl place_mine_step g

/-- The list of mine coordinates that `_place_mines` actually writes:
the random sample when `preset_mines is None`, the presets otherwise. -/
def placed_mines (preset_mines : Option (List (Int × Int)))
    (randomSample : List (Int × Int)) : List (Int × Int) :=
  match preset_mines with
  | none => randomSample
  | some mines => mines

/-- Method `_count_neighbouring_mines`: count the neighbour offsets whose cell is
in bounds and holds a mine.  (The Python loop increments a counter once
per such offset; counting successes over the offset list is the same.) -/
def count_neighbouring_mines (g : Int → Int → Int) (row col : Int) : Int :=
  (neighbour_cells_coordinates.countP fun d =>
    check_bounds (row + d.1) (col + d.2) && decide (g (row + d.1) (col + d.2) = MINE) : Nat)

/-- Body of the `_calculate_neighbour_mines` loop at one coordinate:
`if self.content_grid[row][col] != self.MINE:
   self.content_grid[row][col] = self._count_neighbouring_mines(row, col)`.
Note that the count reads the same grid the loop is mutating. -/
def calc_step (g : Int → Int → Int) (p : Int × Int) : Int → Int → Int :=
  if g p.1 p.2 ≠ MINE then setCell g p.1 p.2 (count_neighbouring_mines g p.1 p.2) else g

/-- Method `_calculate_neighbour_mines`: the double loop over the grid in
row-major order. -/
def calculate_neighbour_mines (g : Int → Int → Int) : Int → Int → Int :=
  all_coordinates.foldl calc_step g

/-- Method `__init__`: zero-initialise the content grid, hide every cell, start
`PLAYING` with `counter_safe_cells = rows*cols - number_mines`, then run
`_place_mines` and `_calculate_neighbour_mines`. -/
def init (preset_mines : Option (List (Int × Int)))
    (randomSample : List (Int × Int)) : Minesweeper :=
  let content0 : Int → Int → Int := fun _ _ => 0
  let content1 := place_mines content0 preset_mines randomSample
  { content_grid := calculate_neighbour_mines content1
    visibility_grid := fun _ _ => CellVisibility.HIDDEN
    game_state := GameState.PLAYING
    counter_safe_cells := rows * cols - number_mines }

/-- Query `get_game_state` (state-passing form). -/
def get_game_state (b : Minesweeper) : GameState × Minesweeper :=
  (b.game_state, b)

/-- Query `get_mines_count` (state-passing form). -/
def get_mines_count (b : Minesweeper) : Int × Minesweeper :=
  (number_mines, b)

/-- Command `reveal`: guard clauses in source order, then reveal the cell and
update game state / counter. -/
def reveal (b : Minesweeper) (row col : Int) : Except Err Unit × Minesweeper :=
  if b.game_state ≠ GameState.PLAYING then
    (.error (.RuntimeError "Game is over"), b)
  else if check_bounds row col = false then
    (.error (.ValueError "Move is out of bounds"), b)
  else if b.visibility_grid row col = CellVisibility.REVEALED then
    (.error (.ValueError "Cell is already revealed"), b)
  else if b.visibility_grid row col = CellVisibility.FLAGGED then
    (.error (.ValueError "Cell is flagged, unflag first"), b)
  else
    let b1 : Minesweeper :=
      { b with visibility_grid := setCell b.visibility_grid row col CellVisibility.REVEALED }
    if b1.content_grid row col = MINE then
      (.ok (), { b1 with game_state := GameState.GAME_OVER })
    else
      let b2 : Minesweeper := { b1 with counter_safe_cells := b1.counter_safe_cells - 1 }
      if b2.counter_safe_cells = 0 then
        (.ok (), { b2 with game_state := GameState.WON })
      else
        (.ok (), b2)

/-- Command `flag`: guard clauses in source order, then toggle
`FLAGGED ↔ HIDDEN`. -/
def flag (b : Minesweeper) (row col : Int) : Except Err Unit × Minesweeper :=
  if b.game_state ≠ GameState.PLAYING then
    (.error (.RuntimeError "Game is over"), b)
  else if check_bounds row col = false then
    (.error (.ValueError "Move is out of bounds"), b)
  else if b.visibility_grid row col = CellVisibility.REVEALED then
    (.error (.ValueError "Cannot flag a revealed cell"), b)
  else if b.visibility_grid row col = CellVisibility.FLAGGED then
    (.ok (), { b with visibility_grid := setCell b.visibility_grid row col CellVisibility.HIDDEN })
  else
    (.ok (), { b with visibility_grid := setCell b.visibility_grid row col CellVisibility.FLAGGED })

/-- Query `get_cell_state` (state-passing form): bounds check, then the
display value of one cell. -/
def get_cell_state (b : Minesweeper) (row col : Int) : Except Err CellValue × Minesweeper :=
  if check_bounds row col = false then
    (.error (.ValueError "Cell out of bounds"), b)
  else if b.visibility_grid row col = CellVisibility.HIDDEN then
    (.ok (.str "H"), b)
  else if b.visibility_grid row col = CellVisibility.FLAGGED then
    (.ok (.str "F"), b)
  else if b.content_grid row col = MINE then
    (.ok (.str "*"), b)
  else
    (.ok (.int (b.content_grid row col)), b)

/-- Inner loop of `get_board_display`: build one display row by calling
`get_cell_state` on each column index, propagating a raised exception. -/
def display_row (b : Minesweeper) (row : Int) :
    List Int → Except Err (List CellValue) × Minesweeper
  | [] => (.ok [], b)
  | c :: rest =>
    match get_cell_state b row c with
    | (.error e, b1) => (.error e, b1)
    | (.ok v, b1) =>
      match display_row b1 row rest with
      | (.error e, b2) => (.error e, b2)
      | (.ok vs, b2) => (.ok (v :: vs), b2)

/-- Outer loop of `get_board_display` over the row indices. -/
def display_rows (b : Minesweeper) :
    List Int → Except Err (List (List CellValue)) × Minesweeper
  | [] => (.ok [], b)
  | r :: rest =>
    match display_row b r ((List.range cols.toNat).map fun c => (c : Int)) with
    | (.error e, b1) => (.error e, b1)
    | (.ok v, b1) =>
      match display_rows b1 rest with
      | (.error e, b2) => (.error e, b2)
      | (.ok vs, b2) => (.ok (v :: vs), b2)

/-- Query `get_board_display` (state-passing form): apply
`get_cell_state` to every coordinate in row-major order. -/
def get_board_display (b : Minesweeper) :
    Except Err (List (List CellValue)) × Minesweeper :=
  display_rows b ((List.range rows.toNat).map fun r => (r : Int))

/-- Number of cells of the board whose content is `MINE`. -/
def mineCount (b : Minesweeper) : Nat :=
  all_coordinates.countP fun p => decide (b.content_grid p.1 p.2 = MINE)

/-- Number of non-mine cells of the board whose visibility is not
`REVEALED` (the quantity the spec's safe-counter invariant tracks). -/
def safeHidden (b : Minesweeper) : Nat :=
  all_coordinates.countP fun p =>
    decide (b.content_grid p.1 p.2 ≠ MINE) &&
      decide (b.visibility_grid p.1 p.2 ≠ CellVisibility.REVEALED)

/-- States reachable from `a` by any sequence of `reveal` / `flag`
calls (failed calls included: they return the unchanged state). -/
inductive Reachable : Minesweeper → Minesweeper → Prop
  | refl (b : Minesweeper) : Reachable b b
  | reveal_step {a b : Minesweeper} (row col : Int) :
      Reachable a b → Reachable a (b.reveal row col).2
  | flag_step {a b : Minesweeper} (row col : Int) :
      Reachable a b → Reachable a (b.flag row col).2

end Minesweeper

/-- The preset mine list of the spec's Scenario C, used as a concrete
test board throughout. -/
def pm0 : List (Int × Int) :=
  [(0, 0), (1, 3), (5, 6), (6, 6), (4, 2), (7, 1), (0, 7), (2, 3), (7, 0), (2, 6)]

/-- A concrete board built from `pm0`. -/
def board0 : Minesweeper := Minesweeper.init (some pm0) []

/-- A concrete lost board: `board0` with the phase forced to
`GAME_OVER`. -/
def lostBoard : Minesweeper := { board0 with game_state := GameState.GAME_OVER }

/-! ## General lemmas about the operations -/

open Minesweeper (check_bounds MINE)

lemma get_cell_state_snd (b : Minesweeper) (row col : Int) :
    (b.get_cell_state row col).2 = b := by
  unfold Minesweeper.get_cell_state
  split_ifs <;> rfl

lemma display_row_snd (row : Int) :
    ∀ (l : List Int) (b : Minesweeper), (Minesweeper.display_row b row l).2 = b
  | [], _ => rfl
  | c :: rest, b => by
    have h1 := get_cell_state_snd b row c
    unfold Minesweeper.display_row
    split
    · rename_i e b1 heq
      rw [heq] at h1
      simpa using h1
    · rename_i v b1 heq
      rw [heq] at h1
      simp only at h1
      have h2 := display_row_snd row rest b1
      split
      · rename_i e2 b2 heq2
        rw [heq2] at h2
        simp only at h2
        simp [h2, h1]
      · rename_i vs b2 heq2
        rw [heq2] at h2
        simp only at h2
        simp [h2, h1]

lemma display_rows_snd :
    ∀ (l : List Int) (b : Minesweeper), (Minesweeper.display_rows b l).2 = b
  | [], _ => rfl
  | r :: rest, b => by
    have h1 := display_row_snd r ((List.range Minesweeper.cols.toNat).map fun c => (c : Int)) b
    unfold Minesweeper.display_rows
    split
    · rename_i e b1 heq
      rw [heq] at h1
      simpa using h1
    · rename_i v b1 heq
      rw [heq] at h1
      simp only at h1
      have h2 := display_rows_snd rest b1
      split
      · rename_i e2 b2 heq2
        rw [heq2] at h2
        simp only at h2
        simp [h2, h1]
      · rename_i vs b2 heq2
        rw [heq2] at h2
        simp only at h2
        simp [h2, h1]

/-! ## Claim theorems -/

/-- C1: on a `PLAYING` board, revealing an in-bounds `HIDDEN` cell
succeeds, marks the cell `REVEALED`, and: if the cell holds a mine the
phase becomes `GAME_OVER` (the spec's `LOST`); otherwise the safe-cell
counter drops by exactly 1 and the phase becomes `WON` exactly when the
counter thereby reaches 0, staying `PLAYING` otherwise. -/
theorem reveal_transition (b : Minesweeper) (row col : Int)
    (hp : b.game_state = GameState.PLAYING)
    (hb : check_bounds row col = true)
    (hh : b.visibility_grid row col = CellVisibility.HIDDEN) :
    (b.reveal row col).1 = .ok () ∧
    (b.reveal row col).2.visibility_grid row col = CellVisibility.REVEALED ∧
    (b.content_grid row col = MINE →
      (b.reveal row col).2.game_state = GameState.GAME_OVER) ∧
    (b.content_grid row col ≠ MINE →
      (b.reveal row col).2.counter_safe_cells = b.counter_safe_cells - 1 ∧
      ((b.reveal row col).2.game_state = GameState.WON ↔ b.counter_safe_cells - 1 = 0) ∧
      (b.counter_safe_cells - 1 ≠ 0 → (b.reveal row col).2.game_state = GameState.PLAYING)) := by
  unfold Minesweeper.reveal
  simp only [hp, hb, hh]
  by_cases hm : b.content_grid row col = MINE <;>
    by_cases hc : b.counter_safe_cells - 1 = 0 <;>
      simp [hm, hc, setCell, hp]

/-- C1 witness: instance of `reveal_transition` on the concrete board
`board0` at the safe hidden cell `(0, 1)`. -/
theorem reveal_transition_witness :
    (board0.reveal 0 1).1 = .ok () ∧
    (board0.reveal 0 1).2.visibility_grid 0 1 = CellVisibility.REVEALED ∧
    (board0.content_grid 0 1 = MINE →
      (board0.reveal 0 1).2.game_state = GameState.GAME_OVER) ∧
    (board0.content_grid 0 1 ≠ MINE →
      (board0.reveal 0 1).2.counter_safe_cells = board0.counter_safe_cells - 1 ∧
      ((board0.reveal 0 1).2.game_state = GameState.WON ↔ board0.counter_safe_cells - 1 = 0) ∧
      (board0.counter_safe_cells - 1 ≠ 0 →
        (board0.reveal 0 1).2.game_state = GameState.PLAYING)) :=
  reveal_transition board0 0 1 rfl (by decide) rfl

/-- C4: `reveal` raises `RuntimeError` (the spec's `GameOverError`)
exactly when the phase is not `PLAYING`; it raises `ValueError` (the
spec's `InvalidMoveError`) exactly when the phase is `PLAYING` and the
coordinate is out of bounds, already revealed, or flagged; it succeeds
exactly otherwise.  `flag` likewise, with revealed cells as its only
cell-state obstruction. -/
theorem error_conditions (b : Minesweeper) (row col : Int) :
    ((∃ m, (b.reveal row col).1 = .error (.RuntimeError m)) ↔
      b.game_state ≠ GameState.PLAYING) ∧
    ((∃ m, (b.reveal row col).1 = .error (.ValueError m)) ↔
      (b.game_state = GameState.PLAYING ∧
        (check_bounds row col = false ∨
         b.visibility_grid row col = CellVisibility.REVEALED ∨
         b.visibility_grid row col = CellVisibility.FLAGGED))) ∧
    ((b.reveal row col).1 = .ok () ↔
      (b.game_state = GameState.PLAYING ∧ check_bounds row col = true ∧
       b.visibility_grid row col ≠ CellVisibility.REVEALED ∧
       b.visibility_grid row col ≠ CellVisibility.FLAGGED)) ∧
    ((∃ m, (b.flag row col).1 = .error (.RuntimeError m)) ↔
      b.game_state ≠ GameState.PLAYING) ∧
    ((∃ m, (b.flag row col).1 = .error (.ValueError m)) ↔
      (b.game_state = GameState.PLAYING ∧
        (check_bounds row col = false ∨
         b.visibility_grid row col = CellVisibility.REVEALED))) ∧
    ((b.flag row col).1 = .ok () ↔
      (b.game_state = GameState.PLAYING ∧ check_bounds row col = true ∧
       b.visibility_grid row col ≠ CellVisibility.REVEALED)) := by
  unfold Minesweeper.reveal Minesweeper.flag
  refine ⟨?_, ?_, ?_, ?_, ?_, ?_⟩ <;> · dsimp only; split_ifs <;> simp_all

/-- C5: whenever `reveal` or `flag` raises, the whole board state is
unchanged (atomic no-op on error). -/
theorem error_preserves_state (b : Minesweeper) (row col : Int) :
    ((b.reveal row col).1 ≠ .ok () → (b.reveal row col).2 = b) ∧
    ((b.flag row col).1 ≠ .ok () → (b.flag row col).2 = b) := by
  unfold Minesweeper.reveal Minesweeper.flag
  constructor <;> · dsimp only; split_ifs <;> simp

/-- C5 witness: the failing call `reveal(0, 10)` (out of bounds) on
`board0` leaves the state unchanged. -/
theorem error_preserves_state_witness : (board0.reveal 0 10).2 = board0 :=
  (error_preserves_state board0 0 10).1 (fun h => nomatch h)

/-- C6: once the phase is not `PLAYING` (i.e. `GAME_OVER` or `WON`),
every subsequent `reveal` or `flag` call returns the state completely
unchanged — in particular no cell's visibility and not the phase. -/
theorem terminal_states_frozen (b : Minesweeper) (row col : Int)
    (h : b.game_state ≠ GameState.PLAYING) :
    (b.reveal row col).2 = b ∧ (b.flag row col).2 = b := by
  unfold Minesweeper.reveal Minesweeper.flag
  refine ⟨?_, ?_⟩ <;> rw [if_pos h]

/-- C6 witness: instance of `terminal_states_frozen` on a lost board. -/
theorem terminal_states_frozen_witness :
    (lostBoard.reveal 3 3).2 = lostBoard ∧ (lostBoard.flag 3 3).2 = lostBoard :=
  terminal_states_frozen lostBoard 3 3 (by decide)

/-- C8: on a `PLAYING` board, toggling the flag of an in-bounds `HIDDEN`
cell twice succeeds both times and restores the entire board state. -/
theorem flag_toggle_involutive (b : Minesweeper) (row col : Int)
    (hp : b.game_state = GameState.PLAYING)
    (hb : check_bounds row col = true)
    (hh : b.visibility_grid row col = CellVisibility.HIDDEN) :
    (b.flag row col).1 = .ok () ∧
    ((b.flag row col).2.flag row col).1 = .ok () ∧
    ((b.flag row col).2.flag row col).2 = b := by
  have hfun : setCell (setCell b.visibility_grid row col CellVisibility.FLAGGED) row col
      CellVisibility.HIDDEN = b.visibility_grid := by
    funext r c
    unfold setCell
    by_cases hrc : r = row ∧ c = col
    · rw [if_pos hrc, ← hh]
      exact (congrArg₂ b.visibility_grid hrc.1 hrc.2).symm
    · rw [if_neg hrc, if_neg hrc]
  have h1 : b.flag row col = (.ok (), { b with visibility_grid := setCell b.visibility_grid row col CellVisibility.FLAGGED }) := by
    unfold Minesweeper.flag
    rw [if_neg (by simp [hp]), if_neg (by simp [hb]), if_neg (by simp [hh]),
      if_neg (by simp [hh])]
  have h2 : ({ b with visibility_grid := setCell b.visibility_grid row col CellVisibility.FLAGGED } : Minesweeper).flag row col = (.ok (), { b with visibility_grid := setCell (setCell b.visibility_grid row col CellVisibility.FLAGGED) row col CellVisibility.HIDDEN }) := by
    unfold Minesweeper.flag
    rw [if_neg (by simp [hp]), if_neg (by simp [hb]), if_neg (by simp [setCell]),
      if_pos (by simp [setCell])]
  refine ⟨?_, ?_, ?_⟩
  · rw [h1]
  · rw [h1]
    dsimp only
    rw [h2]
  · rw [h1]
    dsimp only
    rw [h2]
    dsimp only
    rw [hfun]

/-- C8 witness: instance of `flag_toggle_involutive` on `board0` at the
hidden cell `(0, 1)`. -/
theorem flag_toggle_involutive_witness :
    (board0.flag 0 1).1 = .ok () ∧
    ((board0.flag 0 1).2.flag 0 1).1 = .ok () ∧
    ((board0.flag 0 1).2.flag 0 1).2 = board0 :=
  flag_toggle_involutive board0 0 1 rfl (by decide) rfl

/-- C9: the four queries `get_game_state`, `get_mines_count`,
`get_cell_state` and `get_board_display` all return the board state
unchanged. -/
theorem queries_preserve_state (b : Minesweeper) (row col : Int) :
    (b.get_game_state).2 = b ∧ (b.get_mines_count).2 = b ∧
    (b.get_cell_state row col).2 = b ∧ (b.get_board_display).2 = b :=
  ⟨rfl, rfl, get_cell_state_snd b row col,
    display_rows_snd ((List.range Minesweeper.rows.toNat).map fun r => (r : Int)) b⟩

/-- C10: `check_bounds` accepts exactly the coordinates of the 8×8 grid
(so a negative index is out of bounds, never end-relative); on any
out-of-bounds coordinate `reveal` and `flag` (when the game is running)
and `get_cell_state` (always) reject the move with the out-of-bounds
`ValueError` before touching any grid, leaving the state unchanged. -/
theorem bounds_rejection (b : Minesweeper) (row col : Int) :
    (check_bounds row col = true ↔
      ((0 ≤ row ∧ row < Minesweeper.rows) ∧ (0 ≤ col ∧ col < Minesweeper.cols))) ∧
    (check_bounds row col = false →
      (b.game_state = GameState.PLAYING →
        (b.reveal row col).1 = .error (.ValueError "Move is out of bounds") ∧
        (b.reveal row col).2 = b) ∧
      (b.game_state = GameState.PLAYING →
        (b.flag row col).1 = .error (.ValueError "Move is out of bounds") ∧
        (b.flag row col).2 = b) ∧
      (b.get_cell_state row col).1 = .error (.ValueError "Cell out of bounds") ∧
      (b.get_cell_state row col).2 = b) := by
  constructor
  · simp [check_bounds]
  · intro hb
    unfold Minesweeper.reveal Minesweeper.flag Minesweeper.get_cell_state
    refine ⟨fun hp => ?_, fun hp => ?_, ?_, ?_⟩
    · simp [hp, hb]
    · simp [hp, hb]
    · simp [hb]
    · simp [hb]

/-- C10 witness: instance of `bounds_rejection` at the negative
coordinate `(-1, 0)` on `board0`. -/
theorem bounds_rejection_witness :
    (board0.reveal (-1) 0).1 = .error (.ValueError "Move is out of bounds") ∧
    (board0.reveal (-1) 0).2 = board0 :=
  ((bounds_rejection board0 (-1) 0).2 (by decide)).1 rfl

/-! ## Counting infrastructure for mine placement and neighbour counts -/

lemma all_coordinates_nodup : Minesweeper.all_coordinates.Nodup := by decide

lemma all_coordinates_length : Minesweeper.all_coordinates.length = 64 := by decide

lemma mem_all_coordinates (p : Int × Int) :
    p ∈ Minesweeper.all_coordinates ↔ check_bounds p.1 p.2 = true := by
  obtain ⟨r, c⟩ := p
  constructor
  · intro h
    rw [Minesweeper.all_coordinates, List.mem_flatMap] at h
    obtain ⟨a, ha, hmem⟩ := h
    rw [List.mem_map] at hmem
    obtain ⟨b, hb, hab⟩ := hmem
    rw [List.mem_range] at ha hb
    have h1 : (a : Int) = r := congrArg Prod.fst hab
    have h2 : (b : Int) = c := congrArg Prod.snd hab
    have ha8 : a < 8 := ha
    have hb8 : b < 8 := hb
    rw [check_bounds, decide_eq_true_eq]
    refine ⟨⟨?_, ?_⟩, ?_, ?_⟩
    · omega
    · show r < (8 : Int)
      omega
    · omega
    · show c < (8 : Int)
      omega
  · intro h
    rw [check_bounds, decide_eq_true_eq] at h
    obtain ⟨⟨hr0, hr8⟩, hc0, hc8⟩ := h
    have hr8' : r < (8 : Int) := hr8
    have hc8' : c < (8 : Int) := hc8
    rw [Minesweeper.all_coordinates, List.mem_flatMap]
    refine ⟨r.toNat, ?_, ?_⟩
    · rw [List.mem_range]
      show r.toNat < 8
      omega
    · rw [List.mem_map]
      refine ⟨c.toNat, ?_, ?_⟩
      · rw [List.mem_range]
        show c.toNat < 8
        omega
      · have hr : ((r.toNat : Nat) : Int) = r := by omega
        have hc : ((c.toNat : Nat) : Int) = c := by omega
        rw [hr, hc]

lemma place_fold_mine :
    ∀ (l : List (Int × Int)) (g : Int → Int → Int) (r c : Int),
      (l.foldl Minesweeper.place_mine_step g) r c = MINE ↔ ((r, c) ∈ l ∨ g r c = MINE)
  | [], g, r, c => by simp
  | p :: rest, g, r, c => by
    rw [List.foldl_cons, place_fold_mine rest]
    unfold Minesweeper.place_mine_step setCell
    by_cases hrc : r = p.1 ∧ c = p.2
    · have hp : (r, c) = p := by
        obtain ⟨h1, h2⟩ := hrc
        exact Prod.ext h1 h2
      simp [hrc, hp]
    · have hp : (r, c) ≠ p := by
        intro h
        exact hrc ⟨congrArg Prod.fst h, congrArg Prod.snd h⟩
      simp [hrc, hp]

lemma count_neighbouring_mines_nonneg (g : Int → Int → Int) (row col : Int) :
    0 ≤ Minesweeper.count_neighbouring_mines g row col :=
  Int.natCast_nonneg _

lemma calc_step_mine (g : Int → Int → Int) (p : Int × Int) (r c : Int) :
    (Minesweeper.calc_step g p) r c = MINE ↔ g r c = MINE := by
  unfold Minesweeper.calc_step
  split_ifs with hg
  · unfold setCell
    by_cases hrc : r = p.1 ∧ c = p.2
    · rw [if_pos hrc]
      constructor
      · intro hmc
        exfalso
        have h0 := count_neighbouring_mines_nonneg g p.1 p.2
        rw [hmc] at h0
        norm_num [MINE] at h0
      · intro hgrc
        exact absurd (hrc.1 ▸ hrc.2 ▸ hgrc) hg
    · rw [if_neg hrc]
  · exact Iff.rfl

lemma calc_fold_mine :
    ∀ (l : List (Int × Int)) (g : Int → Int → Int) (r c : Int),
      (l.foldl Minesweeper.calc_step g) r c = MINE ↔ g r c = MINE
  | [], _, _, _ => Iff.rfl
  | p :: rest, g, r, c => by
    rw [List.foldl_cons]
    exact (calc_fold_mine rest _ r c).trans (calc_step_mine g p r c)

lemma calc_fold_not_mem :
    ∀ (l : List (Int × Int)) (g : Int → Int → Int) (r c : Int), (r, c) ∉ l →
      (l.foldl Minesweeper.calc_step g) r c = g r c
  | [], _, _, _, _ => rfl
  | p :: rest, g, r, c, hmem => by
    rw [List.foldl_cons, calc_fold_not_mem rest _ r c (fun h => hmem (List.mem_cons_of_mem p h))]
    unfold Minesweeper.calc_step
    have hrc : ¬(r = p.1 ∧ c = p.2) := fun h =>
      hmem (by
        have hp : (r, c) = p := Prod.ext h.1 h.2
        rw [hp]
        exact List.mem_cons_self p rest)
    split_ifs with hg
    · unfold setCell
      rw [if_neg hrc]
    · rfl

lemma count_nb_congr (g g' : Int → Int → Int)
    (h : ∀ r c, g r c = MINE ↔ g' r c = MINE) (row col : Int) :
    Minesweeper.count_neighbouring_mines g row col =
      Minesweeper.count_neighbouring_mines g' row col := by
  unfold Minesweeper.count_neighbouring_mines
  congr 1
  apply List.countP_congr
  intro d _
  simp [h (row + d.1) (col + d.2)]

lemma calc_fold_correct :
    ∀ (l : List (Int × Int)) (g g0 : Int → Int → Int),
      (∀ r c, g r c = MINE ↔ g0 r c = MINE) → l.Nodup →
      ∀ p ∈ l, g0 p.1 p.2 ≠ MINE →
        (l.foldl Minesweeper.calc_step g) p.1 p.2 =
          Minesweeper.count_neighbouring_mines g0 p.1 p.2
  | [], _, _, _, _, p, hp, _ => absurd hp (List.not_mem_nil p)
  | a :: rest, g, g0, hmines, hnd, p, hp, hg0 => by
    rw [List.foldl_cons]
    rcases List.mem_cons.mp hp with heq | hrest
    · subst heq
      have hnotin : p ∉ rest := (List.nodup_cons.mp hnd).1
      rw [calc_fold_not_mem rest _ p.1 p.2 hnotin]
      unfold Minesweeper.calc_step
      have hgp : g p.1 p.2 ≠ MINE := fun h => hg0 ((hmines p.1 p.2).mp h)
      rw [if_pos hgp]
      unfold setCell
      rw [if_pos ⟨rfl, rfl⟩]
      exact count_nb_congr g g0 hmines p.1 p.2
    · exact calc_fold_correct rest (Minesweeper.calc_step g a) g0
        (fun r c => (calc_step_mine g a r c).trans (hmines r c))
        (List.nodup_cons.mp hnd).2 p hrest hg0

lemma countP_mem_eq_length (l : List (Int × Int)) (hnd : l.Nodup)
    (hsub : ∀ p ∈ l, p ∈ Minesweeper.all_coordinates) :
    Minesweeper.all_coordinates.countP (fun p => decide (p ∈ l)) = l.length := by
  rw [List.countP_eq_length_filter]
  have hperm : List.Perm (Minesweeper.all_coordinates.filter (fun p => decide (p ∈ l))) l := by
    apply List.perm_of_nodup_nodup_toFinset_eq
    · exact all_coordinates_nodup.filter _
    · exact hnd
    · ext x
      simp only [List.mem_toFinset, List.mem_filter, decide_eq_true_eq]
      exact ⟨fun h => h.2, fun h => ⟨hsub x h, h⟩⟩
  exact hperm.length_eq

lemma countP_pred_drop {α : Type} [DecidableEq α] (l : List α) (x : α) (hx : x ∈ l)
    (hnd : l.Nodup) {p q : α → Bool} (hpq : ∀ y ∈ l, y ≠ x → p y = q y)
    (hpx : p x = true) (hqx : q x = false) :
    l.countP p = l.countP q + 1 := by
  have hperm := List.perm_cons_erase hx
  rw [hperm.countP_eq p, hperm.countP_eq q, List.countP_cons, List.countP_cons, hpx, hqx]
  have hcong : (l.erase x).countP p = (l.erase x).countP q := by
    apply List.countP_congr
    intro y hy
    have hyl : y ∈ l := List.mem_of_mem_erase hy
    have hyx : y ≠ x := by
      intro h
      subst h
      exact hnd.not_mem_erase hy
    rw [hpq y hyl hyx]
  rw [hcong]
  simp

lemma place_mines_eq_fold (preset : Option (List (Int × Int)))
    (sample : List (Int × Int)) (g : Int → Int → Int) :
    Minesweeper.place_mines g preset sample =
      (Minesweeper.placed_mines preset sample).foldl Minesweeper.place_mine_step g := by
  cases preset <;> rfl

lemma init_content (preset : Option (List (Int × Int))) (sample : List (Int × Int)) :
    (Minesweeper.init preset sample).content_grid =
      Minesweeper.all_coordinates.foldl Minesweeper.calc_step
        ((Minesweeper.placed_mines preset sample).foldl Minesweeper.place_mine_step
          (fun _ _ => 0)) := by
  unfold Minesweeper.init Minesweeper.calculate_neighbour_mines
  dsimp only
  rw [place_mines_eq_fold]

lemma init_mine_iff (preset : Option (List (Int × Int))) (sample : List (Int × Int))
    (r c : Int) :
    (Minesweeper.init preset sample).content_grid r c = MINE ↔
      (r, c) ∈ Minesweeper.placed_mines preset sample := by
  rw [init_content, calc_fold_mine, place_fold_mine]
  simp [MINE]

lemma mineCount_init (preset : Option (List (Int × Int))) (sample : List (Int × Int))
    (hnd : (Minesweeper.placed_mines preset sample).Nodup)
    (hin : ∀ p ∈ Minesweeper.placed_mines preset sample, check_bounds p.1 p.2 = true) :
    Minesweeper.mineCount (Minesweeper.init preset sample) =
      (Minesweeper.placed_mines preset sample).length := by
  unfold Minesweeper.mineCount
  have hcong : Minesweeper.all_coordinates.countP
        (fun p => decide ((Minesweeper.init preset sample).content_grid p.1 p.2 = MINE)) =
      Minesweeper.all_coordinates.countP
        (fun p => decide (p ∈ Minesweeper.placed_mines preset sample)) := by
    apply List.countP_congr
    intro x hx
    simp only [decide_eq_true_eq]
    simpa using init_mine_iff preset sample x.1 x.2
  rw [hcong]
  exact countP_mem_eq_length _ hnd
    (fun p hp => (mem_all_coordinates p).mpr (hin p hp))

/-- C7: however the board is constructed — preset hazards, or the modelled
random sample standing in for `random.sample` (duplicate-free, drawn from
the grid) — the number of cells whose content is `MINE` equals the
configured `number_mines`, 10. -/
theorem mine_count_exact (preset : Option (List (Int × Int))) (sample : List (Int × Int))
    (hnd : (Minesweeper.placed_mines preset sample).Nodup)
    (hin : ∀ p ∈ Minesweeper.placed_mines preset sample, check_bounds p.1 p.2 = true)
    (hlen : (Minesweeper.placed_mines preset sample).length = 10) :
    Minesweeper.mineCount (Minesweeper.init preset sample) = 10 := by
  rw [mineCount_init preset sample hnd hin, hlen]

/-- C7 witness: the concrete board `board0` (preset branch) carries
exactly 10 mines. -/
theorem mine_count_exact_witness : Minesweeper.mineCount board0 = 10 :=
  mine_count_exact (some pm0) [] (by decide) (by decide) (by decide)

/-- C3: on a board built from distinct in-bounds preset hazards, every
in-bounds non-hazard cell's content equals the exact number of its
in-bounds (orthogonal + diagonal) neighbour offsets landing on a hazard
— even though `_calculate_neighbour_mines` writes its counts into the
very grid its neighbour scan reads. -/
theorem neighbour_counts_correct (l : List (Int × Int)) (sample : List (Int × Int))
    (hnd : l.Nodup) (hin : ∀ p ∈ l, check_bounds p.1 p.2 = true) (hlen : l.length = 10)
    (r c : Int) (hrc : check_bounds r c = true) (hsafe : (r, c) ∉ l) :
    (Minesweeper.init (some l) sample).content_grid r c =
      ((Minesweeper.neighbour_cells_coordinates.countP fun d =>
        check_bounds (r + d.1) (c + d.2) && decide ((r + d.1, c + d.2) ∈ l)) : Nat) := by
  have hmem : (r, c) ∈ Minesweeper.all_coordinates := (mem_all_coordinates (r, c)).mpr hrc
  have hmine : ∀ x y : Int,
      (l.foldl Minesweeper.place_mine_step (fun _ _ => 0)) x y = MINE ↔ (x, y) ∈ l := by
    intro x y
    rw [place_fold_mine]
    simp [MINE]
  have hcalc := calc_fold_correct Minesweeper.all_coordinates
    (l.foldl Minesweeper.place_mine_step (fun _ _ => 0))
    (l.foldl Minesweeper.place_mine_step (fun _ _ => 0))
    (fun _ _ => Iff.rfl) all_coordinates_nodup (r, c) hmem
    (fun h => hsafe ((hmine r c).mp h))
  have hcalc' : (Minesweeper.all_coordinates.foldl Minesweeper.calc_step
        (l.foldl Minesweeper.place_mine_step (fun _ _ => 0))) r c =
      Minesweeper.count_neighbouring_mines
        (l.foldl Minesweeper.place_mine_step (fun _ _ => 0)) r c := hcalc
  rw [init_content]
  rw [show Minesweeper.placed_mines (some l) sample = l from rfl]
  rw [hcalc']
  unfold Minesweeper.count_neighbouring_mines
  refine congrArg Nat.cast (List.countP_congr ?_)
  intro d _
  simp only [Bool.and_eq_true, decide_eq_true_eq]
  rw [hmine (r + d.1) (c + d.2)]

/-- C3 witness: instance of `neighbour_counts_correct` on `board0` at the
safe cell `(0, 1)`. -/
theorem neighbour_counts_correct_witness :
    board0.content_grid 0 1 =
      ((Minesweeper.neighbour_cells_coordinates.countP fun d =>
        check_bounds (0 + d.1) (1 + d.2) && decide ((0 + d.1, 1 + d.2) ∈ pm0)) : Nat) :=
  neighbour_counts_correct pm0 [] (by decide) (by decide) (by decide) 0 1 (by decide)
    (by decide)

/-! ## Branch lemmas for `reveal` and `flag`, and the safe-counter invariant -/

lemma reveal_not_playing (b : Minesweeper) (row col : Int)
    (h : b.game_state ≠ GameState.PLAYING) :
    b.reveal row col = (.error (.RuntimeError "Game is over"), b) := by
  unfold Minesweeper.reveal
  rw [if_pos h]

lemma reveal_oob (b : Minesweeper) (row col : Int)
    (hp : b.game_state = GameState.PLAYING) (hb : check_bounds row col = false) :
    b.reveal row col = (.error (.ValueError "Move is out of bounds"), b) := by
  unfold Minesweeper.reveal
  rw [if_neg (by simp [hp]), if_pos hb]

lemma reveal_revealed (b : Minesweeper) (row col : Int)
    (hp : b.game_state = GameState.PLAYING) (hb : check_bounds row col = true)
    (hv : b.visibility_grid row col = CellVisibility.REVEALED) :
    b.reveal row col = (.error (.ValueError "Cell is already revealed"), b) := by
  unfold Minesweeper.reveal
  rw [if_neg (by simp [hp]), if_neg (by simp [hb]), if_pos hv]

lemma reveal_flagged (b : Minesweeper) (row col : Int)
    (hp : b.game_state = GameState.PLAYING) (hb : check_bounds row col = true)
    (hnr : b.visibility_grid row col ≠ CellVisibility.REVEALED)
    (hv : b.visibility_grid row col = CellVisibility.FLAGGED) :
    b.reveal row col = (.error (.ValueError "Cell is flagged, unflag first"), b) := by
  unfold Minesweeper.reveal
  rw [if_neg (by simp [hp]), if_neg (by simp [hb]), if_neg hnr, if_pos hv]

lemma reveal_mine (b : Minesweeper) (row col : Int)
    (hp : b.game_state = GameState.PLAYING) (hb : check_bounds row col = true)
    (hnr : b.visibility_grid row col ≠ CellVisibility.REVEALED)
    (hnf : b.visibility_grid row col ≠ CellVisibility.FLAGGED)
    (hm : b.content_grid row col = MINE) :
    b.reveal row col = (.ok (), { b with
      visibility_grid := setCell b.visibility_grid row col CellVisibility.REVEALED,
      game_state := GameState.GAME_OVER }) := by
  unfold Minesweeper.reveal
  rw [if_neg (by simp [hp]), if_neg (by simp [hb]), if_neg hnr, if_neg hnf]
  dsimp only
  rw [if_pos hm]

lemma reveal_safe (b : Minesweeper) (row col : Int)
    (hp : b.game_state = GameState.PLAYING) (hb : check_bounds row col = true)
    (hnr : b.visibility_grid row col ≠ CellVisibility.REVEALED)
    (hnf : b.visibility_grid row col ≠ CellVisibility.FLAGGED)
    (hm : b.content_grid row col ≠ MINE) :
    b.reveal row col = (.ok (), { b with
      visibility_grid := setCell b.visibility_grid row col CellVisibility.REVEALED,
      game_state := if b.counter_safe_cells - 1 = 0 then GameState.WON else b.game_state,
      counter_safe_cells := b.counter_safe_cells - 1 }) := by
  unfold Minesweeper.reveal
  rw [if_neg (by simp [hp]), if_neg (by simp [hb]), if_neg hnr, if_neg hnf]
  dsimp only
  rw [if_neg hm]
  by_cases hc : b.counter_safe_cells - 1 = 0
  · rw [if_pos hc, if_pos hc]
  · rw [if_neg hc, if_neg hc]

lemma flag_not_playing (b : Minesweeper) (row col : Int)
    (h : b.game_state ≠ GameState.PLAYING) :
    b.flag row col = (.error (.RuntimeError "Game is over"), b) := by
  unfold Minesweeper.flag
  rw [if_pos h]

lemma flag_oob (b : Minesweeper) (row col : Int)
    (hp : b.game_state = GameState.PLAYING) (hb : check_bounds row col = false) :
    b.flag row col = (.error (.ValueError "Move is out of bounds"), b) := by
  unfold Minesweeper.flag
  rw [if_neg (by simp [hp]), if_pos hb]

lemma flag_revealed (b : Minesweeper) (row col : Int)
    (hp : b.game_state = GameState.PLAYING) (hb : check_bounds row col = true)
    (hv : b.visibility_grid row col = CellVisibility.REVEALED) :
    b.flag row col = (.error (.ValueError "Cannot flag a revealed cell"), b) := by
  unfold Minesweeper.flag
  rw [if_neg (by simp [hp]), if_neg (by simp [hb]), if_pos hv]

lemma flag_unflag (b : Minesweeper) (row col : Int)
    (hp : b.game_state = GameState.PLAYING) (hb : check_bounds row col = true)
    (hnr : b.visibility_grid row col ≠ CellVisibility.REVEALED)
    (hv : b.visibility_grid row col = CellVisibility.FLAGGED) :
    b.flag row col = (.ok (), { b with
      visibility_grid := setCell b.visibility_grid row col CellVisibility.HIDDEN }) := by
  unfold Minesweeper.flag
  rw [if_neg (by simp [hp]), if_neg (by simp [hb]), if_neg hnr, if_pos hv]

lemma flag_set (b : Minesweeper) (row col : Int)
    (hp : b.game_state = GameState.PLAYING) (hb : check_bounds row col = true)
    (hnr : b.visibility_grid row col ≠ CellVisibility.REVEALED)
    (hnf : b.visibility_grid row col ≠ CellVisibility.FLAGGED) :
    b.flag row col = (.ok (), { b with
      visibility_grid := setCell b.visibility_grid row col CellVisibility.FLAGGED }) := by
  unfold Minesweeper.flag
  rw [if_neg (by simp [hp]), if_neg (by simp [hb]), if_neg hnr, if_neg hnf]

lemma safeHidden_reveal_drop (b : Minesweeper) (row col : Int)
    (g : GameState) (n : Int)
    (hb : check_bounds row col = true)
    (hnr : b.visibility_grid row col ≠ CellVisibility.REVEALED)
    (hm : b.content_grid row col ≠ MINE) :
    Minesweeper.safeHidden b =
      Minesweeper.safeHidden { b with
        visibility_grid := setCell b.visibility_grid row col CellVisibility.REVEALED,
        game_state := g, counter_safe_cells := n } + 1 := by
  unfold Minesweeper.safeHidden
  apply countP_pred_drop Minesweeper.all_coordinates (row, col)
    ((mem_all_coordinates (row, col)).mpr hb) all_coordinates_nodup
  · intro y _ hyx
    have hne : ¬(y.1 = row ∧ y.2 = col) := fun h => hyx (Prod.ext h.1 h.2)
    dsimp only
    simp [setCell, hne]
  · simp [hm, hnr]
  · simp [setCell]

lemma countP_not_add {α : Type} (l : List α) (p q : α → Bool)
    (hpq : ∀ a ∈ l, q a = !(p a)) :
    l.countP q + l.countP p = l.length := by
  induction l with
  | nil => rfl
  | cons x xs ih =>
    have ih' := ih (fun a ha => hpq a (List.mem_cons_of_mem x ha))
    rw [List.countP_cons, List.countP_cons, hpq x (List.mem_cons_self x xs),
      List.length_cons]
    cases hx : p x <;> simp [hx] <;> omega

lemma safeHidden_flag_same (b : Minesweeper) (row col : Int) (v : CellVisibility)
    (hv : v ≠ CellVisibility.REVEALED)
    (hnr : b.visibility_grid row col ≠ CellVisibility.REVEALED) :
    Minesweeper.safeHidden { b with
        visibility_grid := setCell b.visibility_grid row col v } =
      Minesweeper.safeHidden b := by
  unfold Minesweeper.safeHidden
  apply List.countP_congr
  intro y _
  dsimp only
  by_cases hyx : y.1 = row ∧ y.2 = col
  · simp [setCell, hyx, hv]
    exact fun _ => hnr
  · simp [setCell, hyx]

/-- C2: for a board constructed from 10 distinct in-bounds hazard
coordinates (preset, or the modelled random sample), in every state
reachable by `reveal`/`flag` calls the counter `counter_safe_cells`
equals, while the phase is `PLAYING`, the number of non-mine cells whose
visibility is not `REVEALED`. -/
theorem safe_counter_invariant (preset : Option (List (Int × Int)))
    (sample : List (Int × Int))
    (hnd : (Minesweeper.placed_mines preset sample).Nodup)
    (hin : ∀ p ∈ Minesweeper.placed_mines preset sample, check_bounds p.1 p.2 = true)
    (hlen : (Minesweeper.placed_mines preset sample).length = 10)
    (b : Minesweeper)
    (hreach : Minesweeper.Reachable (Minesweeper.init preset sample) b) :
    b.game_state = GameState.PLAYING →
      b.counter_safe_cells = (Minesweeper.safeHidden b : Int) := by
  induction hreach with
  | refl =>
    intro _
    have hm : Minesweeper.mineCount (Minesweeper.init preset sample) = 10 := by
      rw [mineCount_init preset sample hnd hin, hlen]
    have hsh : Minesweeper.safeHidden (Minesweeper.init preset sample) = 54 := by
      unfold Minesweeper.safeHidden
      have hstep : Minesweeper.all_coordinates.countP (fun p =>
            decide ((Minesweeper.init preset sample).content_grid p.1 p.2 ≠ MINE) &&
              decide ((Minesweeper.init preset sample).visibility_grid p.1 p.2 ≠
                CellVisibility.REVEALED)) =
          Minesweeper.all_coordinates.countP (fun p =>
            !(decide ((Minesweeper.init preset sample).content_grid p.1 p.2 = MINE))) := by
        apply List.countP_congr
        intro x _
        have hvis : (Minesweeper.init preset sample).visibility_grid x.1 x.2 =
            CellVisibility.HIDDEN := rfl
        simp [hvis]
      rw [hstep]
      have hcomp := countP_not_add Minesweeper.all_coordinates
        (fun p => decide ((Minesweeper.init preset sample).content_grid p.1 p.2 = MINE))
        (fun p => !(decide ((Minesweeper.init preset sample).content_grid p.1 p.2 = MINE)))
        (fun _ _ => rfl)
      rw [all_coordinates_length] at hcomp
      have hm' := hm
      unfold Minesweeper.mineCount at hm'
      omega
    rw [hsh]
    show Minesweeper.rows * Minesweeper.cols - Minesweeper.number_mines = ((54 : Nat) : Int)
    decide
  | @reveal_step bmid row col hr ih =>
    intro hplay'
    by_cases hbp : bmid.game_state = GameState.PLAYING
    · by_cases hbb : check_bounds row col = true
      · by_cases hrev : bmid.visibility_grid row col = CellVisibility.REVEALED
        · rw [reveal_revealed bmid row col hbp hbb hrev] at hplay' ⊢
          exact ih hplay'
        · by_cases hflg : bmid.visibility_grid row col = CellVisibility.FLAGGED
          · rw [reveal_flagged bmid row col hbp hbb hrev hflg] at hplay' ⊢
            exact ih hplay'
          · by_cases hm : bmid.content_grid row col = MINE
            · rw [reveal_mine bmid row col hbp hbb hrev hflg hm] at hplay'
              dsimp only at hplay'
              exact absurd hplay' (by decide)
            · rw [reveal_safe bmid row col hbp hbb hrev hflg hm] at hplay' ⊢
              dsimp only at hplay' ⊢
              by_cases hc : bmid.counter_safe_cells - 1 = 0
              · rw [if_pos hc] at hplay'
                exact absurd hplay' (by decide)
              · have hcnt := ih hbp
                have hdrop := safeHidden_reveal_drop bmid row col
                  (if bmid.counter_safe_cells - 1 = 0 then GameState.WON else bmid.game_state)
                  (bmid.counter_safe_cells - 1) hbb hrev hm
                omega
      · have hbb' : check_bounds row col = false := by
          revert hbb
          cases check_bounds row col <;> simp
        rw [reveal_oob bmid row col hbp hbb'] at hplay' ⊢
        exact ih hplay'
    · rw [reveal_not_playing bmid row col hbp] at hplay' ⊢
      exact ih hplay'
  | @flag_step bmid row col hr ih =>
    intro hplay'
    by_cases hbp : bmid.game_state = GameState.PLAYING
    · by_cases hbb : check_bounds row col = true
      · by_cases hrev : bmid.visibility_grid row col = CellVisibility.REVEALED
        · rw [flag_revealed bmid row col hbp hbb hrev] at hplay' ⊢
          exact ih hplay'
        · by_cases hflg : bmid.visibility_grid row col = CellVisibility.FLAGGED
          · rw [flag_unflag bmid row col hbp hbb hrev hflg] at hplay' ⊢
            dsimp only at hplay' ⊢
            rw [safeHidden_flag_same bmid row col CellVisibility.HIDDEN (by decide) hrev]
            exact ih hbp
          · rw [flag_set bmid row col hbp hbb hrev hflg] at hplay' ⊢
            dsimp only at hplay' ⊢
            rw [safeHidden_flag_same bmid row col CellVisibility.FLAGGED (by decide) hrev]
            exact ih hbp
      · have hbb' : check_bounds row col = false := by
          revert hbb
          cases check_bounds row col <;> simp
        rw [flag_oob bmid row col hbp hbb'] at hplay' ⊢
        exact ih hplay'
    · rw [flag_not_playing bmid row col hbp] at hplay' ⊢
      exact ih hplay'

/-- C2 witness: instance of `safe_counter_invariant` at the constructed
board itself (reachable by the empty command sequence). -/
theorem safe_counter_invariant_witness :
    board0.counter_safe_cells = (Minesweeper.safeHidden board0 : Int) :=
  safe_counter_invariant (some pm0) [] (by decide) (by decide) (by decide) board0
    (Minesweeper.Reachable.refl board0) rfl
